import Mathlib

/-!
cadex-test: the WebGL rendering pipeline of `src/App.jsx` and `src/App-c.jsx`

A shallow embedding of the two entry modules.  `App.jsx` draws a flat triangle once,
`App-c.jsx` draws a rotating mesh every display refresh.

Modelling conventions.

* The graphics context `gl` is a host object.  Its methods are modelled as total: each call
  is appended to a chronological log and returns.  The value a method returns is chosen by
  the host as a function of the log so far, so a statement quantified over `GLContext` holds for
  every behaviour of the host.  The one case in which the WebGL interface makes a call
  raise, a `null` shader or program passed where the interface takes none, is modelled
  apart, by `createProgramStrict` and `AppC.drawCanvasStrict`.
* JavaScript numbers are modelled by an ordered field `R` with exact arithmetic (the
  theorems about rotation take `R = ℝ`); rounding of IEEE doubles and of `Float32Array`
  entries is not modelled.
* `Date.now()` is an input: each place the source reads the clock takes the reading as an
  argument, in integer milliseconds.
-/

namespace Cadex

/-! ## Numbers, matrices and the JavaScript `Math` object -/

/-- The functions of the JavaScript `Math` object that gl-matrix calls. -/
structure JSMath (R : Type) where
  sin : R → R
  cos : R → R
  tan : R → R

/-- A gl-matrix `mat4`: sixteen numbers, `m0 .. m15`, in the library's index order. -/
@[ext]
structure Mat4 (R : Type) where
  m0 : R
  m1 : R
  m2 : R
  m3 : R
  m4 : R
  m5 : R
  m6 : R
  m7 : R
  m8 : R
  m9 : R
  m10 : R
  m11 : R
  m12 : R
  m13 : R
  m14 : R
  m15 : R

/-- A handle of a host object (shader, program, buffer, uniform location). -/
abbrev Handle := Nat

/-! ## WebGL enumerants read from the context (`gl.VERTEX_SHADER`, ...) -/

def VERTEX_SHADER : Nat := 0x8B31
def FRAGMENT_SHADER : Nat := 0x8B30
def COMPILE_STATUS : Nat := 0x8B81
def LINK_STATUS : Nat := 0x8B82
def ARRAY_BUFFER : Nat := 0x8892
def STATIC_DRAW : Nat := 0x88E4
def COLOR_BUFFER_BIT : Nat := 0x4000
def DEPTH_BUFFER_BIT : Nat := 0x100
def DEPTH_TEST : Nat := 0x0B71
def TRIANGLES : Nat := 4
def FLOAT : Nat := 0x1406

/-! ## The host: calls, canvas, context -/

/-- One observable effect on the host: a method call on `gl`, an assignment to the canvas
backing size, or a registration of the frame callback. A `none` argument is JavaScript
`null`. -/
inductive Call (R : Type) where
  | createShader (type : Nat)
  | shaderSource (shader : Handle) (source : String)
  | compileShader (shader : Handle)
  | getShaderParameter (shader : Handle) (pname : Nat)
  | deleteShader (shader : Handle)
  | createProgram
  | attachShader (program : Handle) (shader : Option Handle)
  | linkProgram (program : Handle)
  | getProgramParameter (program : Handle) (pname : Nat)
  | deleteProgram (program : Handle)
  | getUniformLocation (program : Option Handle) (name : String)
  | getAttribLocation (program : Option Handle) (name : String)
  | createBuffer
  | bindBuffer (target : Nat) (buffer : Handle)
  | bufferData (target : Nat) (data : List R) (usage : Nat)
  | useProgram (program : Option Handle)
  | enableVertexAttribArray (index : Int)
  | vertexAttribPointer (index : Int) (size : Nat) (type : Nat) (normalized : Bool)
      (stride : Nat) (offset : Nat)
  | uniformMatrix4fv (location : Option Handle) (transpose : Bool) (value : Mat4 R)
  | drawArrays (mode : Nat) (first : Nat) (count : Nat)
  | viewport (x : Nat) (y : Nat) (width : Nat) (height : Nat)
  | clearColor (r : R) (g : R) (b : R) (a : R)
  | clear (mask : Nat)
  | enable (cap : Nat)
  | setCanvasWidth (value : R)
  | setCanvasHeight (value : R)
  | requestAnimationFrame

/-- The values the host returns, each as a function of the log of effects so far.
`getShaderParameter` and `getProgramParameter` give the truthiness of the returned value,
which is all the source tests. The context is taken to be live: `createShader`,
`createProgram` and `createBuffer` return an object, never `null`. -/
structure Host (R : Type) where
  createShader : List (Call R) → Nat → Handle
  getShaderParameter : List (Call R) → Handle → Nat → Bool
  createProgram : List (Call R) → Handle
  getProgramParameter : List (Call R) → Handle → Nat → Bool
  getUniformLocation : List (Call R) → Option Handle → String → Option Handle
  getAttribLocation : List (Call R) → Option Handle → String → Int
  createBuffer : List (Call R) → Handle

/-- The canvas element behind `gl.canvas`: its CSS size and its backing size in pixels. -/
structure Canvas where
  clientWidth : Nat
  clientHeight : Nat
  width : Nat
  height : Nat
deriving DecidableEq, Repr

/-- The `window` properties the source reads. -/
structure Window (R : Type) where
  devicePixelRatio : R
  innerWidth : R
  innerHeight : R

/-- The graphics context: the host behind it, `gl.canvas` (`none` when it is absent), and
the log of effects, oldest first. -/
structure GLContext (R : Type) where
  host : Host R
  canvas : Option Canvas
  log : List (Call R)

variable {R : Type}

/-- Record one effect at the end of the log. -/
def GLContext.call (gl : GLContext R) (c : Call R) : GLContext R :=
  { gl with log := gl.log ++ [c] }

/-- The effects recorded in `after` since the state `before`. -/
def GLContext.since (before after : GLContext R) : List (Call R) :=
  after.log.drop before.log.length

/-! ## Predicates on effects -/

def Call.isDeleteShader : Call R → Bool
  | .deleteShader _ => true
  | _ => false

def Call.isDeleteShaderOf (h : Handle) : Call R → Bool
  | .deleteShader s => s == h
  | _ => false

def Call.isDeleteProgram : Call R → Bool
  | .deleteProgram _ => true
  | _ => false

def Call.isDeleteProgramOf (h : Handle) : Call R → Bool
  | .deleteProgram p => p == h
  | _ => false

def Call.isDrawArrays : Call R → Bool
  | .drawArrays _ _ _ => true
  | _ => false

def Call.isRequestAnimationFrame : Call R → Bool
  | .requestAnimationFrame => true
  | _ => false

def Call.isCanvasResize : Call R → Bool
  | .setCanvasWidth _ => true
  | .setCanvasHeight _ => true
  | _ => false

/-- The `(mode, first, count)` of a `drawArrays` call. -/
def Call.drawArgs : Call R → Option (Nat × Nat × Nat)
  | .drawArrays mode first count => some (mode, first, count)
  | _ => none

/-- The data of a `bufferData` call. -/
def Call.uploadData : Call R → Option (List R)
  | .bufferData _ data _ => some data
  | _ => none

/-- The `(mode, first, count)` of every `drawArrays` call in a log, in order. -/
def drawCalls (log : List (Call R)) : List (Nat × Nat × Nat) :=
  log.filterMap Call.drawArgs

/-- The data of every `bufferData` call in a log, in order. -/
def uploads (log : List (Call R)) : List (List R) :=
  log.filterMap Call.uploadData

/-! ## `createShader` and `createProgram` (identical in both modules) -/

/-- The function `createShader` of `App.jsx` lines 20-33 and `App-c.jsx` lines 22-35. The result is the
returned value (`none` is `null`) and the context afterwards. -/
def createShader (gl : GLContext R) (shaderType : Nat) (shaderSource : String) :
    Option Handle × GLContext R :=
  let shader := gl.host.createShader gl.log shaderType
  let gl := gl.call (.createShader shaderType)
  let gl := gl.call (.shaderSource shader shaderSource)
  let gl := gl.call (.compileShader shader)
  let isSuccess := gl.host.getShaderParameter gl.log shader COMPILE_STATUS
  let gl := gl.call (.getShaderParameter shader COMPILE_STATUS)
  if isSuccess then
    (some shader, gl)
  else
    let gl := gl.call (.deleteShader shader)
    (none, gl)

/-- The function `createProgram` of `App.jsx` lines 35-47 and `App-c.jsx` lines 37-49. -/
def createProgram (gl : GLContext R) (vertexShader fragmentShader : Option Handle) :
    Option Handle × GLContext R :=
  let program := gl.host.createProgram gl.log
  let gl := gl.call .createProgram
  let gl := gl.call (.attachShader program vertexShader)
  let gl := gl.call (.attachShader program fragmentShader)
  let gl := gl.call (.linkProgram program)
  let isSuccess := gl.host.getProgramParameter gl.log program LINK_STATUS
  let gl := gl.call (.getProgramParameter program LINK_STATUS)
  if isSuccess then
    (some program, gl)
  else
    let gl := gl.call (.deleteProgram program)
    (none, gl)

/-- The handle `createShader` obtains from the host when run in `gl`. -/
def createdShader (gl : GLContext R) (shaderType : Nat) : Handle :=
  gl.host.createShader gl.log shaderType

/-- The compile-status flag `createShader` reads when run in `gl`. -/
def compileStatus (gl : GLContext R) (shaderType : Nat) (shaderSource : String) : Bool :=
  let shader := createdShader gl shaderType
  gl.host.getShaderParameter
    (gl.log ++ [.createShader shaderType, .shaderSource shader shaderSource,
      .compileShader shader]) shader COMPILE_STATUS

/-- The handle `createProgram` obtains from the host when run in `gl`. -/
def createdProgram (gl : GLContext R) : Handle :=
  gl.host.createProgram gl.log

/-- The link-status flag `createProgram` reads when run in `gl`. -/
def linkStatus (gl : GLContext R) (vertexShader fragmentShader : Option Handle) : Bool :=
  let program := createdProgram gl
  gl.host.getProgramParameter
    (gl.log ++ [.createProgram, .attachShader program vertexShader,
      .attachShader program fragmentShader, .linkProgram program]) program LINK_STATUS

/-! ## gl-matrix -/

section Numeric

variable [LinearOrderedField R]

/-- Modelled from the spec: `glMatrix.mat4.create` belongs to the gl-matrix package, which
is not under `src/`. "`model` = identity": the new matrix is the identity. -/
def mat4Create : Mat4 R :=
  { m0 := 1, m1 := 0, m2 := 0, m3 := 0,
    m4 := 0, m5 := 1, m6 := 0, m7 := 0,
    m8 := 0, m9 := 0, m10 := 1, m11 := 0,
    m12 := 0, m13 := 0, m14 := 0, m15 := 1 }

/-- Modelled from the spec: `glMatrix.mat4.perspective` belongs to the gl-matrix package,
which is not under `src/`. "perspective projection with vertical field-of-view, aspect,
near, far": the library's matrix for a finite `far`, which overwrites every entry. -/
def mat4Perspective (M : JSMath R) (fovy aspect near far : R) : Mat4 R :=
  let f := 1 / M.tan (fovy / 2)
  let nf := 1 / (near - far)
  { m0 := f / aspect, m1 := 0, m2 := 0, m3 := 0,
    m4 := 0, m5 := f, m6 := 0, m7 := 0,
    m8 := 0, m9 := 0, m10 := (far + near) * nf, m11 := -1,
    m12 := 0, m13 := 0, m14 := 2 * far * near * nf, m15 := 0 }

/-- Modelled from the spec: `glMatrix.mat4.translate` belongs to the gl-matrix package,
which is not under `src/`. "composed with a translation": the library's update when the
output is the input matrix, which rewrites entries 12 to 15. -/
def mat4Translate (a : Mat4 R) (x y z : R) : Mat4 R :=
  { a with
    m12 := a.m0 * x + a.m4 * y + a.m8 * z + a.m12,
    m13 := a.m1 * x + a.m5 * y + a.m9 * z + a.m13,
    m14 := a.m2 * x + a.m6 * y + a.m10 * z + a.m14,
    m15 := a.m3 * x + a.m7 * y + a.m11 * z + a.m15 }

/-- Modelled from the spec: `glMatrix.mat4.rotateY` belongs to the gl-matrix package, which
is not under `src/`. "rotates `model` about the Y axis by [the angle] radians, applied
relative to the current matrix (cumulative rotation)": the library's update when the output
is the input matrix, which rewrites entries 0 to 3 and 8 to 11 from the sine and cosine of
the angle and leaves the other eight entries as they are. -/
def mat4RotateY (M : JSMath R) (a : Mat4 R) (rad : R) : Mat4 R :=
  let s := M.sin rad
  let c := M.cos rad
  { a with
    m0 := a.m0 * c - a.m8 * s,
    m1 := a.m1 * c - a.m9 * s,
    m2 := a.m2 * c - a.m10 * s,
    m3 := a.m3 * c - a.m11 * s,
    m8 := a.m0 * s + a.m8 * c,
    m9 := a.m1 * s + a.m9 * c,
    m10 := a.m2 * s + a.m10 * c,
    m11 := a.m3 * s + a.m11 * c }

/-! ## `initCanvas` (identical in both modules) -/

/-- Modelled from the spec: the assignments `glCanvas.width = v` and `glCanvas.height = v`
are carried out by the canvas element of the browser, which is not under `src/`. "The
backing is resized to `client * devicePixelRatio`, rounded to integer pixels", "rounded down
to integer": the backing store keeps the whole number of pixels below the assigned value. -/
def backingPixels [FloorRing R] (v : R) : Nat :=
  Int.toNat ⌊v⌋

/-- The function `initCanvas` of `App.jsx` lines 49-75 and `App-c.jsx` lines 51-77. -/
def initCanvas [FloorRing R] (window : Window R) (gl : GLContext R) : GLContext R :=
  match gl.canvas with
  | none => gl
  | some glCanvas =>
    let realToCSSPixels := window.devicePixelRatio
    let displayWidth := (glCanvas.clientWidth : R) * realToCSSPixels
    let displayHeight := (glCanvas.clientHeight : R) * realToCSSPixels
    let gl :=
      if (glCanvas.width : R) ≠ displayWidth ∨ (glCanvas.height : R) ≠ displayHeight then
        let gl := gl.call (.setCanvasWidth displayWidth)
        let gl := gl.call (.setCanvasHeight displayHeight)
        { gl with canvas := some { glCanvas with
            width := backingPixels displayWidth,
            height := backingPixels displayHeight } }
      else gl
    let backing := gl.canvas.getD glCanvas
    let gl := gl.call (.viewport 0 0 backing.width backing.height)
    let gl := gl.call (.clearColor 0 0 0 0)
    gl.call (.clear COLOR_BUFFER_BIT)

/-- The target backing resolution as the specification words it: the client size times the
device pixel ratio, rounded down to whole pixels. -/
def specTarget [FloorRing R] (window : Window R) (c : Canvas) : Nat × Nat :=
  (Int.toNat ⌊(c.clientWidth : R) * window.devicePixelRatio⌋,
   Int.toNat ⌊(c.clientHeight : R) * window.devicePixelRatio⌋)

/-- JavaScript `a || b` on numbers: `a` when it is truthy, otherwise `b`. -/
def jsOr (a b : Nat) : Nat :=
  if a ≠ 0 then a else b

/-! ## `App.jsx`: the triangle -/

namespace App

def vertexShaderSource : String :=
  "\n    attribute vec4 a_position;\n    varying vec4 v_color;\n    uniform mat4 u_cube;\n    uniform mat4 u_camera;\n\n    void main() \x7b\n      gl_Position = a_position;\n      v_color = a_position * 0.5 + 0.5;\n    \x7d\n  "

def fragShaderSource : String :=
  "\n    precision mediump float;\n    varying vec4 v_color;\n\n    void main() \x7b\n      gl_FragColor = v_color;\n    \x7d\n  "

/-- The `positions` array of `drawCanvas`, `App.jsx` lines 103-107. -/
def positions : List R :=
  [-0.5, -0.5, 0,
   0.5, -0.5, 0,
   0, 0.3, 0]

/-- The function `drawCanvas` of `App.jsx` lines 77-119. -/
def drawCanvas (gl : GLContext R) : GLContext R :=
  let r := createShader gl VERTEX_SHADER vertexShaderSource
  let vertexShader := r.1
  let r := createShader r.2 FRAGMENT_SHADER fragShaderSource
  let fragmentShader := r.1
  let r := createProgram r.2 vertexShader fragmentShader
  let program := r.1
  let gl := r.2
  let positionAttributeLocation := gl.host.getAttribLocation gl.log program "a_position"
  let gl := gl.call (.getAttribLocation program "a_position")
  let positionBuffer := gl.host.createBuffer gl.log
  let gl := gl.call .createBuffer
  let gl := gl.call (.bindBuffer ARRAY_BUFFER positionBuffer)
  let gl := gl.call (.bufferData ARRAY_BUFFER positions STATIC_DRAW)
  let gl := gl.call (.useProgram program)
  let gl := gl.call (.enableVertexAttribArray positionAttributeLocation)
  let gl := gl.call (.vertexAttribPointer positionAttributeLocation 3 FLOAT false 0 0)
  gl.call (.drawArrays TRIANGLES 0 3)

end App

/-! ## `App-c.jsx`: the rotating mesh -/

namespace AppC

def vertexShaderSource : String :=
  "\n    attribute vec3 a_position;\n    attribute vec3 a_color;\n    uniform mat4 u_cube;\n    uniform mat4 u_camera;\n    varying vec3 v_color;\n    void main(void) \x7b\n        v_color = a_color;\n        gl_Position = u_camera * u_cube * vec4(a_position, 1.0);\n    \x7d\n  "

def fragShaderSource : String :=
  "\n    precision mediump float;\n    varying vec3 v_color;\n    void main(void) \x7b\n        gl_FragColor = vec4(v_color.rgb, 1.0);\n    \x7d\n  "

/-- The `vertices` array of `drawCanvas`, `App-c.jsx` lines 112-128. -/
def vertices : List R :=
  [0, 0, 0,
   0.5, 1, 0.5,
   1, 0, 0,

   1, 0, 0,
   0.5, 1, 0.5,
   1, 0, 1,

   1, 0, 1,
   0.5, 1, 0.5,
   0, 0, 1,

   0, 0, 1,
   0.5, 1, 0.5,
   0, 0, 0]

/-- The `colors` array of `drawCanvas`, `App-c.jsx` lines 135-156. -/
def colors : List R :=
  [1, 0.5, 0.5,
   1, 0.5, 0.5,
   1, 0.5, 0.5,

   0.5, 0.7, 1,
   0.5, 0.7, 1,
   0.5, 0.7, 1,

   0.3, 1, 0.3,
   0.3, 1, 0.3,
   0.3, 1, 0.3,

   0.7, 1, 0.3,
   0.7, 1, 0.3,
   0.7, 1, 0.3]

/-- The variables of `drawCanvas` that the closure `render` reads and writes. -/
structure Scene (R : Type) where
  program : Option Handle
  uCube : Option Handle
  uCamera : Option Handle
  aPosition : Int
  aColor : Int
  vertexBuffer : Handle
  colorBuffer : Handle
  cameraMatrix : Mat4 R
  cubeMatrix : Mat4 R
  lastRenderTime : Int

/-- The closure `render` of `App-c.jsx` lines 171-205, one frame. `time` is the reading of
`Date.now()` on line 176. -/
def render (M : JSMath R) (time : Int) (s : Scene R) (gl : GLContext R) :
    Scene R × GLContext R :=
  let gl := gl.call .requestAnimationFrame
  let dt := s.lastRenderTime - time
  let cubeMatrix := mat4RotateY M s.cubeMatrix ((dt : R) / 1000)
  let gl := gl.call (.clearColor 1.0 1.0 1.0 1.0)
  let gl := gl.call (.clear (jsOr COLOR_BUFFER_BIT DEPTH_BUFFER_BIT))
  let gl := gl.call (.enable DEPTH_TEST)
  let gl := gl.call (.useProgram s.program)
  let gl := gl.call (.bindBuffer ARRAY_BUFFER s.vertexBuffer)
  let gl := gl.call (.enableVertexAttribArray s.aPosition)
  let gl := gl.call (.vertexAttribPointer s.aPosition 3 FLOAT false 0 0)
  let gl := gl.call (.bindBuffer ARRAY_BUFFER s.colorBuffer)
  let gl := gl.call (.enableVertexAttribArray s.aColor)
  let gl := gl.call (.vertexAttribPointer s.aColor 3 FLOAT false 0 0)
  let gl := gl.call (.uniformMatrix4fv s.uCube false cubeMatrix)
  let gl := gl.call (.uniformMatrix4fv s.uCamera false s.cameraMatrix)
  let gl := gl.call (.drawArrays TRIANGLES 0 36)
  ({ s with cubeMatrix := cubeMatrix, lastRenderTime := time }, gl)

/-- The calls that one run of `render` makes, in order. -/
def frameCalls (M : JSMath R) (time : Int) (s : AppC.Scene R) : List (Call R) :=
  [.requestAnimationFrame,
   .clearColor 1.0 1.0 1.0 1.0,
   .clear (jsOr COLOR_BUFFER_BIT DEPTH_BUFFER_BIT),
   .enable DEPTH_TEST,
   .useProgram s.program,
   .bindBuffer ARRAY_BUFFER s.vertexBuffer,
   .enableVertexAttribArray s.aPosition,
   .vertexAttribPointer s.aPosition 3 FLOAT false 0 0,
   .bindBuffer ARRAY_BUFFER s.colorBuffer,
   .enableVertexAttribArray s.aColor,
   .vertexAttribPointer s.aColor 3 FLOAT false 0 0,
   .uniformMatrix4fv s.uCube false
      (mat4RotateY M s.cubeMatrix (((s.lastRenderTime - time : Int) : R) / 1000)),
   .uniformMatrix4fv s.uCamera false s.cameraMatrix,
   .drawArrays TRIANGLES 0 36]

/-- The body of `drawCanvas` before its call of `render`, `App-c.jsx` lines 80-169. `now`
is the reading of `Date.now()` on line 169. -/
def drawCanvasSetup (M : JSMath R) (window : Window R) (now : Int) (gl : GLContext R) :
    Scene R × GLContext R :=
  let r := createShader gl VERTEX_SHADER vertexShaderSource
  let vertexShader := r.1
  let r := createShader r.2 FRAGMENT_SHADER fragShaderSource
  let fragmentShader := r.1
  let r := createProgram r.2 vertexShader fragmentShader
  let program := r.1
  let gl := r.2
  let uCube := gl.host.getUniformLocation gl.log program "u_cube"
  let gl := gl.call (.getUniformLocation program "u_cube")
  let uCamera := gl.host.getUniformLocation gl.log program "u_camera"
  let gl := gl.call (.getUniformLocation program "u_camera")
  let aPosition := gl.host.getAttribLocation gl.log program "a_position"
  let gl := gl.call (.getAttribLocation program "a_position")
  let aColor := gl.host.getAttribLocation gl.log program "a_color"
  let gl := gl.call (.getAttribLocation program "a_color")
  let vertexBuffer := gl.host.createBuffer gl.log
  let gl := gl.call .createBuffer
  let gl := gl.call (.bindBuffer ARRAY_BUFFER vertexBuffer)
  let gl := gl.call (.bufferData ARRAY_BUFFER vertices STATIC_DRAW)
  let colorBuffer := gl.host.createBuffer gl.log
  let gl := gl.call .createBuffer
  let gl := gl.call (.bindBuffer ARRAY_BUFFER colorBuffer)
  let gl := gl.call (.bufferData ARRAY_BUFFER colors STATIC_DRAW)
  let cameraMatrix : Mat4 R :=
    mat4Perspective M 0.785 (window.innerWidth / window.innerHeight) 0.1 1000
  let cameraMatrix := mat4Translate cameraMatrix 0 0 (-5)
  let cubeMatrix : Mat4 R := mat4Create
  let lastRenderTime := now
  ({ program := program, uCube := uCube, uCamera := uCamera,
     aPosition := aPosition, aColor := aColor,
     vertexBuffer := vertexBuffer, colorBuffer := colorBuffer,
     cameraMatrix := cameraMatrix, cubeMatrix := cubeMatrix,
     lastRenderTime := lastRenderTime }, gl)

/-- The function `drawCanvas` of `App-c.jsx` lines 79-208: the setup, then the first call of `render`
on line 207. `now` and `time` are the two readings of `Date.now()`. -/
def drawCanvas (M : JSMath R) (window : Window R) (now time : Int) (gl : GLContext R) :
    Scene R × GLContext R :=
  let r := drawCanvasSetup M window now gl
  render M time r.1 r.2

/-- The host running the registered callback once per clock reading, oldest first. -/
def runFrames (M : JSMath R) : List Int → Scene R × GLContext R → Scene R × GLContext R
  | [], st => st
  | time :: rest, st => runFrames M rest (render M time st.1 st.2)

/-- The clock readings of `n` frames when the first frame comes `d` milliseconds after
`start` and each further frame `d` milliseconds after the one before. -/
def frameTimes (start d : Int) : Nat → List Int
  | 0 => []
  | n + 1 => (start + d) :: frameTimes (start + d) d n

end AppC

end Numeric

/-! ## A context that enforces its interface -/

/-- The outcome of code run on a context that enforces the WebGL interface: the code
returns a value, or one of its calls raises `TypeError` and the code stops there, in which
case `raised` keeps the context as it was at that moment. -/
inductive Outcome (R : Type) (α : Type) where
  | returned (value : α)
  | raised (gl : GLContext R)

/-- The function `createProgram` on a context that enforces the WebGL interface, in which
the shader parameter of `attachShader` takes no `null`: with a `null` vertex shader the call
on line 39 of `App-c.jsx` raises, with a `null` fragment shader the call on line 40 raises,
and with two shaders the function runs as `createProgram` does. -/
def createProgramStrict (gl : GLContext R) (vertexShader fragmentShader : Option Handle) :
    Outcome R (Option Handle × GLContext R) :=
  match vertexShader, fragmentShader with
  | none, _ => .raised (gl.call .createProgram)
  | some v, none =>
    .raised ((gl.call .createProgram).call
      (.attachShader (gl.host.createProgram gl.log) (some v)))
  | some v, some f => .returned (createProgram gl (some v) (some f))

/-- The function `drawCanvas` of `App-c.jsx` on a context that enforces the WebGL
interface, in which the program parameter of `getUniformLocation` takes no `null`: when
`createProgram` raises so does `drawCanvas`; when it returns `null` the call of
`getUniformLocation` on line 104 raises; otherwise nothing raises and `drawCanvas` runs as
in the model above, up to the end of its first frame. -/
def AppC.drawCanvasStrict [LinearOrderedField R] (M : JSMath R) (window : Window R)
    (now time : Int) (gl : GLContext R) : Outcome R (AppC.Scene R × GLContext R) :=
  let r := createShader gl VERTEX_SHADER AppC.vertexShaderSource
  let vertexShader := r.1
  let r := createShader r.2 FRAGMENT_SHADER AppC.fragShaderSource
  let fragmentShader := r.1
  match createProgramStrict r.2 vertexShader fragmentShader with
  | .raised g => .raised g
  | .returned r =>
    match r.1 with
    | none => .raised r.2
    | some _ => .returned (AppC.drawCanvas M window now time gl)

/-! ## A host on which every compile and every link succeeds -/

/-- A host that hands out the length of the log as the handle of each new object, so that
handles differ, reports every compile and every link as successful, and finds every
uniform and attribute. -/
def acceptingHost : Host R where
  createShader := fun log _ => log.length
  getShaderParameter := fun _ _ _ => true
  createProgram := fun log => log.length
  getProgramParameter := fun _ _ _ => true
  getUniformLocation := fun log _ _ => some log.length
  getAttribLocation := fun _ _ name => if name = "a_position" then 0 else 1
  createBuffer := fun log => log.length

/-! ## A canvas whose client size times the pixel ratio is not whole -/

/-- A window with device pixel ratio 1.5. -/
def fractionalWindow : Window ℚ :=
  { devicePixelRatio := 1.5, innerWidth := 800, innerHeight := 600 }

/-- A context on a canvas of client size 101 x 100 whose backing store has the default
size 300 x 150; nothing has been called yet. -/
def freshCanvasContext : GLContext ℚ :=
  { host := acceptingHost,
    canvas := some { clientWidth := 101, clientHeight := 100, width := 300, height := 150 },
    log := [] }

/-- A context on a canvas of client size 101 x 100 whose backing store is 151 x 150, the
client size times 1.5 rounded down; nothing has been called yet. -/
def settledCanvasContext : GLContext ℚ :=
  { host := acceptingHost,
    canvas := some { clientWidth := 101, clientHeight := 100, width := 151, height := 150 },
    log := [] }

/-! ## Theorems -/

/-- Every function of the embedding only appends to the log; this is the shape of
`createShader`: the earlier log is an initial segment of the later one. -/
theorem createShader_log_grows (gl : GLContext R) (shaderType : Nat) (shaderSource : String) :
    gl.log <+: (createShader gl shaderType shaderSource).2.log := by
  simp only [createShader, GLContext.call]
  split <;> simp [List.append_assoc]

/-- C1: for every context, shader kind and source text, `createShader` returns the handle it
created when the compile-status flag is true; when the flag is false it returns `null` and
among the calls it made there is exactly one `deleteShader`, on that same handle; when the
flag is true it makes no `deleteShader` call. -/
theorem createShader_contract (gl : GLContext R) (shaderType : Nat) (shaderSource : String) :
    (createShader gl shaderType shaderSource).1
        = (if compileStatus gl shaderType shaderSource
            then some (createdShader gl shaderType) else none)
    ∧ (gl.since (createShader gl shaderType shaderSource).2).countP
          (Call.isDeleteShaderOf (createdShader gl shaderType))
        = (if compileStatus gl shaderType shaderSource then 0 else 1)
    ∧ (gl.since (createShader gl shaderType shaderSource).2).countP Call.isDeleteShader
        = (if compileStatus gl shaderType shaderSource then 0 else 1) := by
  simp only [createShader, compileStatus, createdShader, GLContext.since, GLContext.call,
    List.append_assoc, List.singleton_append, List.cons_append, List.nil_append]
  split <;> rename_i h <;>
    simp [h, List.countP_cons, Call.isDeleteShaderOf, Call.isDeleteShader]

/-- C2: for every context and pair of shaders, `createProgram` returns the program handle it
created if and only if the link-status flag is true, and returns `null` if and only if the
flag is false; when the flag is false there is exactly one `deleteProgram` among the calls
it made, on that same handle, and when the flag is true there is none. -/
theorem createProgram_contract (gl : GLContext R) (vertexShader fragmentShader : Option Handle) :
    ((createProgram gl vertexShader fragmentShader).1 = some (createdProgram gl)
        ↔ linkStatus gl vertexShader fragmentShader = true)
    ∧ ((createProgram gl vertexShader fragmentShader).1 = none
        ↔ linkStatus gl vertexShader fragmentShader = false)
    ∧ (gl.since (createProgram gl vertexShader fragmentShader).2).countP
          (Call.isDeleteProgramOf (createdProgram gl))
        = (if linkStatus gl vertexShader fragmentShader then 0 else 1)
    ∧ (gl.since (createProgram gl vertexShader fragmentShader).2).countP Call.isDeleteProgram
        = (if linkStatus gl vertexShader fragmentShader then 0 else 1) := by
  simp only [createProgram, linkStatus, createdProgram, GLContext.since, GLContext.call,
    List.append_assoc, List.singleton_append, List.cons_append, List.nil_append]
  split <;> rename_i h <;>
    simp [h, List.countP_cons, Call.isDeleteProgramOf, Call.isDeleteProgram]

/-! ### The log only grows -/

theorem GLContext.log_call (gl : GLContext R) (c : Call R) :
    (gl.call c).log = gl.log ++ [c] := rfl

theorem GLContext.log_eq_append_since {a b : GLContext R} (h : a.log <+: b.log) :
    b.log = a.log ++ a.since b := by
  obtain ⟨x, hx⟩ := h
  simp [GLContext.since, ← hx]

theorem GLContext.grows_call {l : List (Call R)} {gl : GLContext R} (c : Call R)
    (h : l <+: gl.log) : l <+: (gl.call c).log :=
  h.trans ⟨[c], rfl⟩

theorem createProgram_log_grows (gl : GLContext R) (vs fs : Option Handle) :
    gl.log <+: (createProgram gl vs fs).2.log := by
  simp only [createProgram, GLContext.call]
  split <;> simp [List.append_assoc]

theorem grows_createShader {l : List (Call R)} {gl : GLContext R} (t : Nat) (s : String)
    (h : l <+: gl.log) : l <+: (createShader gl t s).2.log :=
  h.trans (createShader_log_grows gl t s)

theorem grows_createProgram {l : List (Call R)} {gl : GLContext R} (vs fs : Option Handle)
    (h : l <+: gl.log) : l <+: (createProgram gl vs fs).2.log :=
  h.trans (createProgram_log_grows gl vs fs)

theorem drawCalls_append (l₁ l₂ : List (Call R)) :
    drawCalls (l₁ ++ l₂) = drawCalls l₁ ++ drawCalls l₂ := by
  simp [drawCalls, List.filterMap_append]

theorem uploads_append (l₁ l₂ : List (Call R)) :
    uploads (l₁ ++ l₂) = uploads l₁ ++ uploads l₂ := by
  simp [uploads, List.filterMap_append]

/-- What `createShader` adds to the log holds no draw call and no upload. -/
theorem createShader_log_obs (gl : GLContext R) (t : Nat) (s : String) :
    drawCalls (createShader gl t s).2.log = drawCalls gl.log
    ∧ uploads (createShader gl t s).2.log = uploads gl.log
    ∧ (createShader gl t s).2.log.countP Call.isDrawArrays
        = gl.log.countP Call.isDrawArrays := by
  simp only [createShader, GLContext.call]
  split <;>
    simp [drawCalls, uploads, List.filterMap_append, List.countP_append, Call.drawArgs,
      Call.uploadData, Call.isDrawArrays]

/-- What `createProgram` adds to the log holds no draw call and no upload. -/
theorem createProgram_log_obs (gl : GLContext R) (vs fs : Option Handle) :
    drawCalls (createProgram gl vs fs).2.log = drawCalls gl.log
    ∧ uploads (createProgram gl vs fs).2.log = uploads gl.log
    ∧ (createProgram gl vs fs).2.log.countP Call.isDrawArrays
        = gl.log.countP Call.isDrawArrays := by
  simp only [createProgram, GLContext.call]
  split <;>
    simp [drawCalls, uploads, List.filterMap_append, List.countP_append, Call.drawArgs,
      Call.uploadData, Call.isDrawArrays]

theorem drawCalls_since {a b : GLContext R} {x : List (Nat × Nat × Nat)}
    (h : a.log <+: b.log) (hx : drawCalls b.log = drawCalls a.log ++ x) :
    drawCalls (a.since b) = x := by
  rw [GLContext.log_eq_append_since h] at hx
  simpa [drawCalls, List.filterMap_append] using hx

theorem uploads_since {a b : GLContext R} {x : List (List R)}
    (h : a.log <+: b.log) (hx : uploads b.log = uploads a.log ++ x) :
    uploads (a.since b) = x := by
  rw [GLContext.log_eq_append_since h] at hx
  simpa [uploads, List.filterMap_append] using hx

theorem countP_since {a b : GLContext R} {p : Call R → Bool} {n : Nat}
    (h : a.log <+: b.log) (hx : b.log.countP p = a.log.countP p + n) :
    (a.since b).countP p = n := by
  rw [GLContext.log_eq_append_since h, List.countP_append] at hx
  omega

theorem createShader_host (gl : GLContext R) (t : Nat) (s : String) :
    (createShader gl t s).2.host = gl.host := by
  simp only [createShader, GLContext.call]
  split <;> rfl

theorem createShader_log_registrations (gl : GLContext R) (t : Nat) (s : String) :
    (createShader gl t s).2.log.countP Call.isRequestAnimationFrame
      = gl.log.countP Call.isRequestAnimationFrame := by
  simp only [createShader, GLContext.call]
  split <;> simp [List.countP_append, Call.isRequestAnimationFrame]

theorem createProgram_log_registrations (gl : GLContext R) (vs fs : Option Handle) :
    (createProgram gl vs fs).2.log.countP Call.isRequestAnimationFrame
      = gl.log.countP Call.isRequestAnimationFrame := by
  simp only [createProgram, GLContext.call]
  split <;> simp [List.countP_append, Call.isRequestAnimationFrame]

section NumericTheorems

variable [LinearOrderedField R]

theorem App.triangle_log_grows (gl : GLContext R) : gl.log <+: (App.drawCanvas gl).log := by
  simp only [App.drawCanvas]
  repeat first
    | exact ⟨[], List.append_nil _⟩
    | apply GLContext.grows_call
    | apply grows_createProgram
    | apply grows_createShader

theorem App.triangle_log_obs (gl : GLContext R) :
    drawCalls (App.drawCanvas gl).log = drawCalls gl.log ++ [(TRIANGLES, 0, 3)]
    ∧ uploads (App.drawCanvas gl).log = uploads gl.log ++ [App.positions]
    ∧ (App.drawCanvas gl).log.countP Call.isDrawArrays
        = gl.log.countP Call.isDrawArrays + 1 := by
  refine ⟨?_, ?_, ?_⟩
  · simp only [App.drawCanvas, GLContext.log_call, drawCalls_append,
      (createProgram_log_obs _ _ _).1, (createShader_log_obs _ _ _).1]
    simp [drawCalls, Call.drawArgs]
  · simp only [App.drawCanvas, GLContext.log_call, uploads_append,
      (createProgram_log_obs _ _ _).2.1, (createShader_log_obs _ _ _).2.1]
    simp [uploads, Call.uploadData]
  · simp only [App.drawCanvas, GLContext.log_call, List.countP_append]
    simp only [(createProgram_log_obs _ _ _).2.2, (createShader_log_obs _ _ _).2.2]
    simp [List.countP_cons, Call.isDrawArrays]

/-- C10: in the triangle module, for every context, one run of `drawCanvas` makes exactly one
`drawArrays` call, with mode `TRIANGLES`, first vertex 0 and count 3; the one upload it
makes is the position array of the three vertices (-0.5,-0.5,0), (0.5,-0.5,0), (0,0.3,0),
nine numbers, so the count drawn equals the number of 3-number vertices uploaded. -/
theorem App_drawCanvas_one_draw (gl : GLContext R) :
    drawCalls (gl.since (App.drawCanvas gl)) = [(TRIANGLES, 0, 3)]
    ∧ (gl.since (App.drawCanvas gl)).countP Call.isDrawArrays = 1
    ∧ uploads (gl.since (App.drawCanvas gl))
        = [[-0.5, -0.5, 0, 0.5, -0.5, 0, 0, 0.3, 0]]
    ∧ (uploads (gl.since (App.drawCanvas gl))).map (fun data => data.length / 3) = [3] := by
  have hp := App.triangle_log_grows gl
  have ho := App.triangle_log_obs gl
  have hu : uploads (gl.since (App.drawCanvas gl)) = [App.positions] :=
    uploads_since hp ho.2.1
  refine ⟨drawCalls_since hp ho.1, countP_since hp ho.2.2, ?_, ?_⟩
  · rw [hu]; rfl
  · rw [hu]; simp [App.positions]

/-! ### The frame body of `App-c.jsx` -/

theorem AppC.render_log (M : JSMath R) (time : Int) (s : AppC.Scene R) (gl : GLContext R) :
    (AppC.render M time s gl).2.log = gl.log ++ AppC.frameCalls M time s := by
  simp [AppC.render, AppC.frameCalls, GLContext.call]

theorem AppC.render_since (M : JSMath R) (time : Int) (s : AppC.Scene R) (gl : GLContext R) :
    gl.since (AppC.render M time s gl).2 = AppC.frameCalls M time s := by
  simp [GLContext.since, AppC.render_log]

theorem AppC.render_log_grows (M : JSMath R) (time : Int) (s : AppC.Scene R)
    (gl : GLContext R) : gl.log <+: (AppC.render M time s gl).2.log :=
  ⟨_, (AppC.render_log M time s gl).symm⟩

/-! ### `drawCanvas` of `App-c.jsx` -/

theorem AppC.drawCanvasSetup_log_grows (M : JSMath R) (window : Window R) (now : Int)
    (gl : GLContext R) : gl.log <+: (AppC.drawCanvasSetup M window now gl).2.log := by
  simp only [AppC.drawCanvasSetup]
  repeat first
    | exact ⟨[], List.append_nil _⟩
    | apply GLContext.grows_call
    | apply grows_createProgram
    | apply grows_createShader

theorem AppC.drawCanvasSetup_log_obs (M : JSMath R) (window : Window R) (now : Int)
    (gl : GLContext R) :
    drawCalls (AppC.drawCanvasSetup M window now gl).2.log = drawCalls gl.log
    ∧ uploads (AppC.drawCanvasSetup M window now gl).2.log
        = uploads gl.log ++ [AppC.vertices, AppC.colors] := by
  constructor
  · simp only [AppC.drawCanvasSetup, GLContext.log_call, drawCalls_append,
      (createProgram_log_obs _ _ _).1, (createShader_log_obs _ _ _).1]
    simp [drawCalls, Call.drawArgs]
  · simp only [AppC.drawCanvasSetup, GLContext.log_call, uploads_append,
      (createProgram_log_obs _ _ _).2.1, (createShader_log_obs _ _ _).2.1]
    simp [uploads, Call.uploadData]

theorem AppC.drawCanvas_log_grows (M : JSMath R) (window : Window R) (now time : Int)
    (gl : GLContext R) : gl.log <+: (AppC.drawCanvas M window now time gl).2.log := by
  simp only [AppC.drawCanvas]
  exact (AppC.drawCanvasSetup_log_grows M window now gl).trans (AppC.render_log_grows _ _ _ _)

theorem AppC.drawCanvas_log_obs (M : JSMath R) (window : Window R) (now time : Int)
    (gl : GLContext R) :
    drawCalls (AppC.drawCanvas M window now time gl).2.log
        = drawCalls gl.log ++ [(TRIANGLES, 0, 36)]
    ∧ uploads (AppC.drawCanvas M window now time gl).2.log
        = uploads gl.log ++ [AppC.vertices, AppC.colors] := by
  simp only [AppC.drawCanvas, AppC.render_log, drawCalls_append, uploads_append,
    (AppC.drawCanvasSetup_log_obs M window now gl).1,
    (AppC.drawCanvasSetup_log_obs M window now gl).2]
  simp [AppC.frameCalls, drawCalls, uploads, Call.drawArgs, Call.uploadData]

/-- C9, the code at its only configuration: for every context, `drawCanvas` of `App-c.jsx`
uploads the position array and the colour array, each of 36 numbers, which is 12 vertices
at 3 numbers per vertex, and its frame draws `drawArrays(TRIANGLES, 0, 36)`: the vertex
count drawn, 36, exceeds the 12 vertices that either buffer holds. -/
theorem AppC_drawCanvas_draws_past_buffers (M : JSMath R) (window : Window R)
    (now time : Int) (gl : GLContext R) :
    uploads (gl.since (AppC.drawCanvas M window now time gl).2)
        = [AppC.vertices, AppC.colors]
    ∧ (AppC.vertices : List R).length = 3 * 12
    ∧ (AppC.colors : List R).length = 3 * 12
    ∧ drawCalls (gl.since (AppC.drawCanvas M window now time gl).2) = [(TRIANGLES, 0, 36)]
    ∧ 12 < 0 + 36 := by
  have hp := AppC.drawCanvas_log_grows M window now time gl
  have ho := AppC.drawCanvas_log_obs M window now time gl
  exact ⟨uploads_since hp ho.2, by simp [AppC.vertices], by simp [AppC.colors],
    drawCalls_since hp ho.1, by norm_num⟩

/-! ### No frame runs with a `null` program -/

theorem AppC.drawCanvasSetup_log_counts (M : JSMath R) (window : Window R) (now : Int)
    (gl : GLContext R) :
    (AppC.drawCanvasSetup M window now gl).2.log.countP Call.isRequestAnimationFrame
        = gl.log.countP Call.isRequestAnimationFrame
    ∧ (AppC.drawCanvasSetup M window now gl).2.log.countP Call.isDrawArrays
        = gl.log.countP Call.isDrawArrays := by
  constructor
  · simp only [AppC.drawCanvasSetup, GLContext.log_call, List.countP_append,
      createProgram_log_registrations, createShader_log_registrations]
    simp [List.countP_cons, Call.isRequestAnimationFrame]
  · simp only [AppC.drawCanvasSetup, GLContext.log_call, List.countP_append,
      (createProgram_log_obs _ _ _).2.2, (createShader_log_obs _ _ _).2.2]
    simp [List.countP_cons, Call.isDrawArrays]

theorem AppC.frameCalls_counts (M : JSMath R) (time : Int) (s : AppC.Scene R) :
    (AppC.frameCalls M time s).head? = some .requestAnimationFrame
    ∧ (AppC.frameCalls M time s).countP Call.isRequestAnimationFrame = 1
    ∧ (AppC.frameCalls M time s).countP Call.isDrawArrays = 1 := by
  simp [AppC.frameCalls, List.countP_cons, Call.isRequestAnimationFrame, Call.isDrawArrays]

theorem AppC.render_program (M : JSMath R) (time : Int) (s : AppC.Scene R)
    (gl : GLContext R) : (AppC.render M time s gl).1.program = s.program := rfl

theorem AppC.runFrames_program (M : JSMath R) (times : List Int)
    (st : AppC.Scene R × GLContext R) :
    (AppC.runFrames M times st).1.program = st.1.program := by
  induction times generalizing st with
  | nil => rfl
  | cons t ts ih => simp only [AppC.runFrames]; rw [ih, AppC.render_program]

theorem AppC.runFrames_log_grows (M : JSMath R) (times : List Int)
    (st : AppC.Scene R × GLContext R) :
    st.2.log <+: (AppC.runFrames M times st).2.log := by
  induction times generalizing st with
  | nil => exact ⟨[], List.append_nil _⟩
  | cons t ts ih =>
    simp only [AppC.runFrames]
    exact (AppC.render_log_grows M t st.1 st.2).trans (ih _)

theorem AppC.runFrames_log_counts (M : JSMath R) (times : List Int)
    (st : AppC.Scene R × GLContext R) :
    (AppC.runFrames M times st).2.log.countP Call.isRequestAnimationFrame
        = st.2.log.countP Call.isRequestAnimationFrame + times.length
    ∧ (AppC.runFrames M times st).2.log.countP Call.isDrawArrays
        = st.2.log.countP Call.isDrawArrays + times.length := by
  induction times generalizing st with
  | nil => simp [AppC.runFrames]
  | cons t ts ih =>
    simp only [AppC.runFrames, List.length_cons]
    have h := ih (AppC.render M t st.1 st.2)
    rw [AppC.render_log, List.countP_append, List.countP_append,
      (AppC.frameCalls_counts M t st.1).2.1, (AppC.frameCalls_counts M t st.1).2.2] at h
    omega

theorem AppC.drawCanvas_log_counts (M : JSMath R) (window : Window R) (now time : Int)
    (gl : GLContext R) :
    (AppC.drawCanvas M window now time gl).2.log.countP Call.isRequestAnimationFrame
        = gl.log.countP Call.isRequestAnimationFrame + 1
    ∧ (AppC.drawCanvas M window now time gl).2.log.countP Call.isDrawArrays
        = gl.log.countP Call.isDrawArrays + 1 := by
  simp only [AppC.drawCanvas, AppC.render_log, List.countP_append,
    (AppC.frameCalls_counts M _ _).2.1, (AppC.frameCalls_counts M _ _).2.2,
    (AppC.drawCanvasSetup_log_counts M window now gl).1,
    (AppC.drawCanvasSetup_log_counts M window now gl).2]
  exact ⟨trivial, trivial⟩

theorem AppC.drawCanvas_program (M : JSMath R) (window : Window R) (now time : Int)
    (gl : GLContext R) :
    (AppC.drawCanvas M window now time gl).1.program
      = (createProgram
          (createShader (createShader gl VERTEX_SHADER AppC.vertexShaderSource).2
            FRAGMENT_SHADER AppC.fragShaderSource).2
          (createShader gl VERTEX_SHADER AppC.vertexShaderSource).1
          (createShader (createShader gl VERTEX_SHADER AppC.vertexShaderSource).2
            FRAGMENT_SHADER AppC.fragShaderSource).1).1 := rfl

/-- C3: on a context that enforces the WebGL interface no frame runs with a `null`
program, so no frame with a `null` program makes a draw call. Either `drawCanvas` raises
before `render` is first called, which happens only when a shader or the program is `null`,
and then no `drawArrays` call and no `requestAnimationFrame` call has been made; or it
returns with a program that is not `null`, the program stays the same in every later frame,
and each of the frames run so far has re-registered itself once and drawn once. -/
theorem AppC_no_frame_has_null_program (M : JSMath R) (window : Window R) (now time : Int)
    (gl : GLContext R) (times : List Int) :
    match AppC.drawCanvasStrict M window now time gl with
    | .raised g =>
        ((createShader gl VERTEX_SHADER AppC.vertexShaderSource).1 = none
          ∨ (createShader (createShader gl VERTEX_SHADER AppC.vertexShaderSource).2
              FRAGMENT_SHADER AppC.fragShaderSource).1 = none
          ∨ (AppC.drawCanvas M window now time gl).1.program = none)
        ∧ drawCalls (gl.since g) = []
        ∧ (gl.since g).countP Call.isRequestAnimationFrame = 0
    | .returned st =>
        st = AppC.drawCanvas M window now time gl
        ∧ st.1.program ≠ none
        ∧ (AppC.runFrames M times st).1.program = st.1.program
        ∧ (gl.since (AppC.runFrames M times st).2).countP Call.isRequestAnimationFrame
            = times.length + 1
        ∧ (gl.since (AppC.runFrames M times st).2).countP Call.isDrawArrays
            = times.length + 1 := by
  have hprog := AppC.drawCanvas_program M window now time gl
  have hp2 : gl.log <+: (createShader (createShader gl VERTEX_SHADER AppC.vertexShaderSource).2
      FRAGMENT_SHADER AppC.fragShaderSource).2.log :=
    grows_createShader _ _ (createShader_log_grows gl _ _)
  have hd2 : drawCalls (createShader (createShader gl VERTEX_SHADER AppC.vertexShaderSource).2
      FRAGMENT_SHADER AppC.fragShaderSource).2.log = drawCalls gl.log ++ [] := by
    rw [(createShader_log_obs _ _ _).1, (createShader_log_obs _ _ _).1, List.append_nil]
  have hr2 : (createShader (createShader gl VERTEX_SHADER AppC.vertexShaderSource).2
      FRAGMENT_SHADER AppC.fragShaderSource).2.log.countP Call.isRequestAnimationFrame
      = gl.log.countP Call.isRequestAnimationFrame + 0 := by
    rw [createShader_log_registrations, createShader_log_registrations, Nat.add_zero]
  simp only [AppC.drawCanvasStrict]
  rcases h1 : (createShader gl VERTEX_SHADER AppC.vertexShaderSource).1 with _ | v
  · simp only [createProgramStrict]
    refine ⟨Or.inl trivial, drawCalls_since (GLContext.grows_call _ hp2) ?_,
      countP_since (GLContext.grows_call _ hp2) ?_⟩
    · rw [GLContext.log_call, drawCalls_append, hd2]
      simp [drawCalls, Call.drawArgs]
    · rw [GLContext.log_call, List.countP_append, hr2]
      simp [List.countP_cons, Call.isRequestAnimationFrame]
  · rcases h2 : (createShader (createShader gl VERTEX_SHADER AppC.vertexShaderSource).2
        FRAGMENT_SHADER AppC.fragShaderSource).1 with _ | f
    · simp only [createProgramStrict]
      refine ⟨Or.inr (Or.inl trivial),
        drawCalls_since (GLContext.grows_call _ (GLContext.grows_call _ hp2)) ?_,
        countP_since (GLContext.grows_call _ (GLContext.grows_call _ hp2)) ?_⟩
      · rw [GLContext.log_call, GLContext.log_call, drawCalls_append, drawCalls_append, hd2]
        simp [drawCalls, Call.drawArgs]
      · rw [GLContext.log_call, GLContext.log_call, List.countP_append, List.countP_append,
          hr2]
        simp [List.countP_cons, Call.isRequestAnimationFrame]
    · simp only [createProgramStrict]
      rw [h1, h2] at hprog
      rcases h3 : (createProgram (createShader (createShader gl VERTEX_SHADER
          AppC.vertexShaderSource).2 FRAGMENT_SHADER AppC.fragShaderSource).2
          (some v) (some f)).1 with _ | p
      · simp only []
        refine ⟨Or.inr (Or.inr (hprog.trans h3)),
          drawCalls_since (grows_createProgram _ _ hp2) ?_,
          countP_since (grows_createProgram _ _ hp2) ?_⟩
        · rw [(createProgram_log_obs _ _ _).1, hd2]
        · rw [createProgram_log_registrations, hr2]
      · simp only []
        have hst : (AppC.drawCanvas M window now time gl).1.program ≠ none := by
          rw [hprog, h3]; exact Option.some_ne_none p
        have hg : gl.log <+: (AppC.runFrames M times
            (AppC.drawCanvas M window now time gl)).2.log :=
          (AppC.drawCanvas_log_grows M window now time gl).trans
            (AppC.runFrames_log_grows M times _)
        refine ⟨trivial, hst, AppC.runFrames_program M times _, countP_since hg ?_,
          countP_since hg ?_⟩
        · rw [(AppC.runFrames_log_counts M times _).1,
            (AppC.drawCanvas_log_counts M window now time gl).1]
          omega
        · rw [(AppC.runFrames_log_counts M times _).2,
            (AppC.drawCanvas_log_counts M window now time gl).2]
          omega

/-- On the host on which every compile and every link succeeds nothing raises:
`drawCanvas` returns, as in the model without raising. -/
theorem AppC.drawCanvasStrict_acceptingHost :
    AppC.drawCanvasStrict (⟨Real.sin, Real.cos, Real.tan⟩ : JSMath ℝ) ⟨1, 800, 600⟩ 0 0
        ⟨acceptingHost, none, []⟩
      = .returned (AppC.drawCanvas (⟨Real.sin, Real.cos, Real.tan⟩ : JSMath ℝ) ⟨1, 800, 600⟩
          0 0 ⟨acceptingHost, none, []⟩) := by
  simp [AppC.drawCanvasStrict, createProgramStrict, createShader, createProgram,
    GLContext.call, acceptingHost]

end NumericTheorems

/-! ### Rotation of the model matrix, in exact real arithmetic -/

theorem mat4RotateY_real_zero (a : Mat4 ℝ) :
    mat4RotateY ⟨Real.sin, Real.cos, Real.tan⟩ a 0 = a := by
  ext <;> simp [mat4RotateY]

theorem mat4RotateY_real_add (a : Mat4 ℝ) (x y : ℝ) :
    mat4RotateY ⟨Real.sin, Real.cos, Real.tan⟩
        (mat4RotateY ⟨Real.sin, Real.cos, Real.tan⟩ a x) y
      = mat4RotateY ⟨Real.sin, Real.cos, Real.tan⟩ a (x + y) := by
  ext <;> simp only [mat4RotateY, Real.sin_add, Real.cos_add] <;> ring

theorem AppC.render_cubeMatrix (M : JSMath ℝ) (time : Int) (s : AppC.Scene ℝ)
    (gl : GLContext ℝ) :
    (AppC.render M time s gl).1.cubeMatrix
      = mat4RotateY M s.cubeMatrix (((s.lastRenderTime - time : Int) : ℝ) / 1000) := rfl

theorem AppC.render_lastRenderTime (M : JSMath ℝ) (time : Int) (s : AppC.Scene ℝ)
    (gl : GLContext ℝ) : (AppC.render M time s gl).1.lastRenderTime = time := rfl

/-- After `n` frames, each `d` milliseconds after the one before, the model matrix is the
matrix at the start rotated by `-(n * d) / 1000` radians: the angle of each frame is
`(lastRenderTime - time) / 1000`. -/
theorem AppC.runFrames_cubeMatrix (n : Nat) (d : Int) (s : AppC.Scene ℝ) (gl : GLContext ℝ) :
    (AppC.runFrames ⟨Real.sin, Real.cos, Real.tan⟩ (AppC.frameTimes s.lastRenderTime d n)
        (s, gl)).1.cubeMatrix
      = mat4RotateY ⟨Real.sin, Real.cos, Real.tan⟩ s.cubeMatrix (-((n : ℝ) * (d : ℝ)) / 1000) := by
  induction n generalizing s gl with
  | zero => simp [AppC.runFrames, AppC.frameTimes, mat4RotateY_real_zero]
  | succ n ih =>
    simp only [AppC.frameTimes, AppC.runFrames]
    have h := ih (AppC.render ⟨Real.sin, Real.cos, Real.tan⟩ (s.lastRenderTime + d) s gl).1
      (AppC.render ⟨Real.sin, Real.cos, Real.tan⟩ (s.lastRenderTime + d) s gl).2
    rw [AppC.render_lastRenderTime] at h
    rw [h, AppC.render_cubeMatrix, mat4RotateY_real_add]
    congr 1
    push_cast
    ring

theorem sin_sixteen_ne_zero : Real.sin 16 ≠ 0 := by
  intro h
  obtain ⟨k, hk⟩ := Real.sin_eq_zero_iff.mp h
  have h3 : (3 : ℝ) < Real.pi := Real.pi_gt_three
  have h4 : Real.pi < 3.15 := Real.pi_lt_d2
  rcases le_or_lt k 5 with hle | hgt
  · have : (k : ℝ) ≤ 5 := by exact_mod_cast hle
    nlinarith
  · have : (6 : ℝ) ≤ k := by exact_mod_cast hgt
    nlinarith

/-- C6: for every model matrix, a frame whose clock reading equals `lastRenderTime`
(elapsed time 0) leaves every entry of the model matrix unchanged; so does the update
`rotateY(m, m, 0 / 1000)` itself. -/
theorem AppC_render_zero_elapsed (s : AppC.Scene ℝ) (gl : GLContext ℝ) :
    (AppC.render ⟨Real.sin, Real.cos, Real.tan⟩ s.lastRenderTime s gl).1.cubeMatrix
        = s.cubeMatrix
    ∧ mat4RotateY ⟨Real.sin, Real.cos, Real.tan⟩ s.cubeMatrix (((0 : Int) : ℝ) / 1000)
        = s.cubeMatrix := by
  constructor
  · rw [AppC.render_cubeMatrix]
    simp [mat4RotateY_real_zero]
  · simp [mat4RotateY_real_zero]

/-- C4, the code at `d = 16`, `n = 1000`: starting from the scene that `drawCanvas` sets up
(identity model matrix), after 1000 frames 16 ms apart the model matrix is the identity
rotated about Y by -16 radians, and this is not the identity rotated by 16 radians. -/
theorem AppC_runFrames_rotates_backwards (window : Window ℝ) (now : Int) (gl : GLContext ℝ) :
    (AppC.runFrames ⟨Real.sin, Real.cos, Real.tan⟩ (AppC.frameTimes now 16 1000)
        (AppC.drawCanvasSetup ⟨Real.sin, Real.cos, Real.tan⟩ window now gl)).1.cubeMatrix
      = mat4RotateY ⟨Real.sin, Real.cos, Real.tan⟩ mat4Create (-16)
    ∧ mat4RotateY ⟨Real.sin, Real.cos, Real.tan⟩ mat4Create (-16)
      ≠ mat4RotateY (⟨Real.sin, Real.cos, Real.tan⟩ : JSMath ℝ) mat4Create 16 := by
  constructor
  · have h := AppC.runFrames_cubeMatrix 1000 16
      (AppC.drawCanvasSetup ⟨Real.sin, Real.cos, Real.tan⟩ window now gl).1
      (AppC.drawCanvasSetup ⟨Real.sin, Real.cos, Real.tan⟩ window now gl).2
    have hl : (AppC.drawCanvasSetup (⟨Real.sin, Real.cos, Real.tan⟩ : JSMath ℝ)
        window now gl).1.lastRenderTime = now := rfl
    have hc : (AppC.drawCanvasSetup (⟨Real.sin, Real.cos, Real.tan⟩ : JSMath ℝ)
        window now gl).1.cubeMatrix = mat4Create := rfl
    rw [hl, hc] at h
    have e : -(((1000 : ℕ) : ℝ) * ((16 : ℤ) : ℝ)) / 1000 = -16 := by norm_num
    rw [h, e]
  · intro h
    have h8 := congrArg Mat4.m8 h
    simp [mat4RotateY, mat4Create] at h8
    have := sin_sixteen_ne_zero
    apply this
    linarith

/-! ### `initCanvas` -/

theorem floor_fractional_width : ⌊(101 : ℚ) * 1.5⌋ = 151 := by
  rw [Int.floor_eq_iff]; norm_num

theorem floor_fractional_height : ⌊(100 : ℚ) * 1.5⌋ = 150 := by
  rw [Int.floor_eq_iff]; norm_num

/-- Without a canvas `initCanvas` does nothing. -/
theorem initCanvas_no_canvas {R : Type} [LinearOrderedField R] [FloorRing R]
    (window : Window R) (gl : GLContext R) (h : gl.canvas = none) :
    initCanvas window gl = gl := by
  simp [initCanvas, h]

/-- The guard of `initCanvas`: the backing size is assigned exactly when the backing width
or height differs from the client size times the ratio, taken as it is, without rounding. -/
theorem initCanvas_resize_count {R : Type} [LinearOrderedField R] [FloorRing R]
    (window : Window R) (gl : GLContext R) (c : Canvas) (h : gl.canvas = some c) :
    (gl.since (initCanvas window gl)).countP Call.isCanvasResize
      = (if (c.width : R) ≠ (c.clientWidth : R) * window.devicePixelRatio
            ∨ (c.height : R) ≠ (c.clientHeight : R) * window.devicePixelRatio
          then 2 else 0) := by
  simp only [initCanvas, h, GLContext.since, GLContext.call]
  split_ifs <;>
    simp [List.countP_cons, Call.isCanvasResize]

/-- When the client size times the ratio is a whole number of pixels in both directions, a
second call of `initCanvas` assigns neither the backing width nor the backing height. -/
theorem initCanvas_idempotent_of_whole {R : Type} [LinearOrderedField R] [FloorRing R]
    (window : Window R) (gl : GLContext R) (c : Canvas) (w h : Nat)
    (hc : gl.canvas = some c)
    (hw : (c.clientWidth : R) * window.devicePixelRatio = w)
    (hh : (c.clientHeight : R) * window.devicePixelRatio = h) :
    ((initCanvas window gl).since (initCanvas window (initCanvas window gl))).countP
      Call.isCanvasResize = 0 := by
  have key : ∃ c', (initCanvas window gl).canvas = some c' ∧ c'.clientWidth = c.clientWidth
      ∧ c'.clientHeight = c.clientHeight ∧ c'.width = w ∧ c'.height = h := by
    simp only [initCanvas, hc, GLContext.call]
    split_ifs with hg
    · exact ⟨_, rfl, rfl, rfl, by simp [backingPixels, hw], by simp [backingPixels, hh]⟩
    · refine ⟨c, hc, rfl, rfl, ?_, ?_⟩
      · have : (c.width : R) = (w : R) := by
          rw [← hw]; by_contra hne; exact hg (Or.inl hne)
        exact_mod_cast this
      · have : (c.height : R) = (h : R) := by
          rw [← hh]; by_contra hne; exact hg (Or.inr hne)
        exact_mod_cast this
  obtain ⟨c', hc', e1, e2, e3, e4⟩ := key
  rw [initCanvas_resize_count window _ c' hc', e1, e2, e3, e4, hw, hh]
  simp

/-- Whenever the target rounded down differs from the current backing size, `initCanvas`
assigns the backing width and height, and the backing size afterwards is that target. -/
theorem initCanvas_assigns_when_target_differs {R : Type} [LinearOrderedField R]
    [FloorRing R] (window : Window R) (gl : GLContext R) (c : Canvas)
    (hc : gl.canvas = some c) (hd : specTarget window c ≠ (c.width, c.height)) :
    (gl.since (initCanvas window gl)).countP Call.isCanvasResize = 2
    ∧ (initCanvas window gl).canvas
        = some { c with width := (specTarget window c).1, height := (specTarget window c).2 } := by
  have hg : (c.width : R) ≠ (c.clientWidth : R) * window.devicePixelRatio
      ∨ (c.height : R) ≠ (c.clientHeight : R) * window.devicePixelRatio := by
    by_contra hn
    push_neg at hn
    apply hd
    simp [specTarget, ← hn.1, ← hn.2]
  refine ⟨by rw [initCanvas_resize_count window gl c hc, if_pos hg], ?_⟩
  simp only [initCanvas, hc, GLContext.call, if_pos hg]
  rfl

theorem initCanvas_fresh :
    initCanvas fractionalWindow freshCanvasContext =
      { host := acceptingHost,
        canvas := some { clientWidth := 101, clientHeight := 100, width := 151, height := 150 },
        log := [.setCanvasWidth (101 * 1.5), .setCanvasHeight (100 * 1.5),
          .viewport 0 0 151 150, .clearColor 0 0 0 0, .clear COLOR_BUFFER_BIT] } := by
  simp [initCanvas, GLContext.call, backingPixels, fractionalWindow, freshCanvasContext,
    floor_fractional_width, floor_fractional_height]
  norm_num

/-- C7, the code at client size 101 x 100 and device pixel ratio 1.5: the first call of
`initCanvas` leaves the backing store at 151 x 150, and the second call, with the client
size and the ratio unchanged, assigns the backing width and the backing height again. -/
theorem initCanvas_second_call_resizes :
    (initCanvas fractionalWindow freshCanvasContext).canvas
        = some { clientWidth := 101, clientHeight := 100, width := 151, height := 150 }
    ∧ ((initCanvas fractionalWindow freshCanvasContext).since
          (initCanvas fractionalWindow (initCanvas fractionalWindow freshCanvasContext))).countP
        Call.isCanvasResize = 2 := by
  refine ⟨by rw [initCanvas_fresh], ?_⟩
  rw [initCanvas_resize_count fractionalWindow _ _ (by rw [initCanvas_fresh])]
  norm_num [fractionalWindow]

/-- C8, the code at client size 101 x 100, device pixel ratio 1.5 and backing store
151 x 150: the target rounded down, (151, 150), equals the current backing size, yet
`initCanvas` assigns the backing width and height, and the values it assigns are the
products as they are, 151.5 and 150. -/
theorem initCanvas_assigns_when_target_equal :
    specTarget fractionalWindow
        { clientWidth := 101, clientHeight := 100, width := 151, height := 150 } = (151, 150)
    ∧ settledCanvasContext.since (initCanvas fractionalWindow settledCanvasContext)
        = [.setCanvasWidth (303 / 2), .setCanvasHeight 150,
           .viewport 0 0 151 150, .clearColor 0 0 0 0, .clear COLOR_BUFFER_BIT] := by
  constructor
  · simp [specTarget, fractionalWindow, floor_fractional_width, floor_fractional_height]
  · simp [initCanvas, GLContext.call, GLContext.since, backingPixels, fractionalWindow,
      settledCanvasContext, floor_fractional_width, floor_fractional_height]
    norm_num

end Cadex
